import Mathlib

/-!
Verification development for `src/accelerate/commands/launch.py`:
the launch-configuration reconciliation and multi-backend dispatch core.

The Python source is shallowly embedded below.  Mutable `args`
(an `argparse.Namespace`) becomes the record `LaunchArgs`; a Python
attribute that may be absent or `None` becomes an `Option`; environment
probes (`torch.cuda.device_count()`, `is_bf16_available(True)`, ...)
become fields of `EnvProbe`; the persisted configuration returned by
`load_config_from_file` becomes `ConfigDefaults`.  Raising `ValueError`
becomes returning `.error` in `Except`.
-/

namespace AccelerateLaunch

/-- Values of `accelerate.utils.DistributedType` used by `launch.py`. -/
inductive DistributedType where
  | NO
  | MULTI_GPU
  | MULTI_NPU
  | MULTI_XPU
  | DEEPSPEED
  | TPU
  | FSDP
  | MEGATRON_LM
  deriving Repr, DecidableEq, BEq

/-- Values of `accelerate.utils.ComputeEnvironment` used by `launch.py`. -/
inductive ComputeEnvironment where
  | LOCAL_MACHINE
  | AMAZON_SAGEMAKER
  deriving Repr, DecidableEq, BEq

/-- The mutable `args` namespace of `launch.py`, restricted to the fields
read or written by `_validate_launch_command`, `launch_command` and the
launchers.  Booleans are `store_true` flags (explicitly set iff `true`);
scalars that argparse defaults to `None` are `Option`s (`none` = unset).
`use_cpu` is not an argparse field: it only comes into existence via
`setattr` during resolution, hence `Option Bool` (`none` = attribute
absent, as tested by `hasattr(args, "use_cpu")`). -/
structure LaunchArgs where
  config_file : Option String := none
  quiet : Bool := false
  module : Bool := false
  no_python : Bool := false
  cpu : Bool := false
  multi_gpu : Bool := false
  tpu : Bool := false
  mixed_precision : Option String := none
  num_processes : Option Int := none
  num_machines : Option Int := none
  num_cpu_threads_per_process : Option Int := none
  use_deepspeed : Bool := false
  use_fsdp : Bool := false
  use_megatron_lm : Bool := false
  use_xpu : Bool := false
  gpu_ids : Option String := none
  tpu_use_cluster : Bool := false
  debug : Bool := false
  dynamo_backend : Option String := none
  use_cpu : Option Bool := none
  deepspeed_multinode_launcher : String := "pdsh"
  deriving Repr, DecidableEq

/-- Host-environment probes consulted by `_validate_launch_command`. -/
structure EnvProbe where
  default_config_file_exists : Bool := false
  xpu_available : Bool := false
  npu_available : Bool := false
  tpu_available : Bool := false
  xpu_device_count : Nat := 0
  npu_device_count : Nat := 0
  cuda_device_count : Nat := 0
  torch_ge_1_10 : Bool := false
  bf16_available : Bool := false
  physical_cpu_count : Nat := 1
  env_local_size : Nat := 1
  deriving Repr, DecidableEq

/-- The persisted configuration record returned by `load_config_from_file`,
restricted to the fields `_validate_launch_command` reads. -/
structure ConfigDefaults where
  compute_environment : ComputeEnvironment := .LOCAL_MACHINE
  distributed_type : DistributedType := .NO
  tpu_use_cluster : Bool := false
  gpu_ids : Option String := none
  num_machines : Int := 1
  num_processes : Int := 1
  mixed_precision : Option String := none
  debug : Bool := false
  use_cpu : Bool := false
  deriving Repr, DecidableEq

/-- Errors raised (as `ValueError` / `AttributeError`) during resolution. -/
inductive ResolveError where
  | mutuallyExclusive
  | numProcessesTooSmall
  | gpuIdsTooFew
  | bf16Requirement
  | useCpuAttrMissing
  deriving Repr, DecidableEq

/-- Result of `_validate_launch_command`: the fully resolved `args`, the
loaded defaults (`None` when no config file applied), and
`mp_from_config_flag`. -/
structure Resolved where
  args : LaunchArgs
  defaults : Option ConfigDefaults
  mp_from_config_flag : Bool
  deriving Repr, DecidableEq

/-- Python truthiness of `args.mixed_precision` (`if not args.mixed_precision`):
`None` and the empty string are falsy. -/
def pyFalsy : Option String → Bool
  | none => true
  | some s => s.isEmpty

/-- Line 709: `sum([args.multi_gpu, args.cpu, args.tpu, args.use_deepspeed,
args.use_fsdp])`. -/
def exclusiveFlagsCount (a : LaunchArgs) : Nat :=
  (if a.multi_gpu then 1 else 0) + (if a.cpu then 1 else 0) + (if a.tpu then 1 else 0)
    + (if a.use_deepspeed then 1 else 0) + (if a.use_fsdp then 1 else 0)

/-- Line 713: `args.multi_gpu and (args.num_processes is not None) and
(args.num_processes < 2)`. -/
def numProcessesCheckFails (a : LaunchArgs) : Bool :=
  a.multi_gpu
    && (match a.num_processes with
        | some n => decide (n < 2)
        | none => false)

/-- Line 720 guard: `args.config_file is not None or
os.path.isfile(default_config_file) and not args.cpu` (Python `or` binds
looser than `and`). -/
def loadsConfigDefaults (a : LaunchArgs) (p : EnvProbe) : Bool :=
  a.config_file.isSome || (p.default_config_file_exists && !a.cpu)

/-- Lines 722-729: no distributed-mode flag was given explicitly. -/
def noExplicitMode (a : LaunchArgs) : Bool :=
  !a.multi_gpu && !a.tpu && !a.tpu_use_cluster && !a.use_deepspeed && !a.use_fsdp
    && !a.use_megatron_lm

/-- Lines 731-736: `defaults.distributed_type in (MULTI_GPU, MULTI_NPU,
MULTI_XPU)`. -/
def isMultiGpuType : DistributedType → Bool
  | .MULTI_GPU => true
  | .MULTI_NPU => true
  | .MULTI_XPU => true
  | _ => false

/-- Lines 722-740: when no distributed-mode flag was explicit, adopt the
persisted `distributed_type` (and `tpu_use_cluster` when it selects TPU). -/
def adoptDistributedMode (a : LaunchArgs) (d : ConfigDefaults) : LaunchArgs :=
  if noExplicitMode a then
    let tpuFlag := d.distributed_type == .TPU
    { a with
      use_deepspeed := d.distributed_type == .DEEPSPEED
      multi_gpu := isMultiGpuType d.distributed_type
      tpu := tpuFlag
      use_fsdp := d.distributed_type == .FSDP
      use_megatron_lm := d.distributed_type == .MEGATRON_LM
      tpu_use_cluster := if tpuFlag then d.tpu_use_cluster else false }
  else a

/-- Lines 741-745: `gpu_ids` defaults to the persisted value, else `"all"`. -/
def resolveGpuIds (a : LaunchArgs) (d : ConfigDefaults) : LaunchArgs :=
  if a.gpu_ids.isNone then
    match d.gpu_ids with
    | some g => { a with gpu_ids := some g }
    | none => { a with gpu_ids := some "all" }
  else a

/-- Lines 747-748: `num_machines` from the persisted config when multi-GPU
is active and it is unset. -/
def resolveNumMachines (a : LaunchArgs) (d : ConfigDefaults) : LaunchArgs :=
  if a.multi_gpu && a.num_machines.isNone then { a with num_machines := some d.num_machines }
  else a

/-- State of `args` right before the gpu-ids cardinality check at line 750. -/
def mergedArgs (a : LaunchArgs) (d : ConfigDefaults) : LaunchArgs :=
  resolveNumMachines (resolveGpuIds (adoptDistributedMode a d) d) d

/-- Python's `str.split(",")` on a character list: split at every comma,
keeping empty fields (so the result always has one more element than the
string has commas). -/
def splitCommaAux : List Char → List Char → List String
  | [], acc => [⟨acc.reverse⟩]
  | c :: cs, acc =>
    if c == ',' then ⟨acc.reverse⟩ :: splitCommaAux cs []
    else splitCommaAux cs (c :: acc)

/-- Python's `s.split(",")`. -/
def pySplitComma (s : String) : List String := splitCommaAux s.data []

/-- Line 750: `len(args.gpu_ids.split(",")) < 2 and (args.gpu_ids != "all")
and args.multi_gpu and args.num_machines <= 1`.  When this is reached,
`gpu_ids` is always set and `num_machines` is set whenever `multi_gpu`
holds, so the `getD` defaults are never observable. -/
def gpuIdsInvalid (a : LaunchArgs) : Bool :=
  decide ((pySplitComma (a.gpu_ids.getD "")).length < 2)
    && (a.gpu_ids.getD "") != "all"
    && a.multi_gpu
    && decide (a.num_machines.getD 1 ≤ 1)

/-- Lines 755-779: for `LOCAL_MACHINE` persisted configs, flood every unset
`args` field from the matching persisted field (`compute_environment`,
`mixed_precision` and `distributed_type` are excluded; fields restricted to
those this model carries). -/
def floodFromDefaults (a : LaunchArgs) (d : ConfigDefaults) : LaunchArgs :=
  { a with
    gpu_ids := if a.gpu_ids.isNone then d.gpu_ids else a.gpu_ids
    num_processes := if a.num_processes.isNone then some d.num_processes else a.num_processes
    num_machines := if a.num_machines.isNone then some d.num_machines else a.num_machines
    use_cpu := if a.use_cpu.isNone then some d.use_cpu else a.use_cpu }

/-- Lines 780-781: `if not args.debug: args.debug = defaults.debug`. -/
def applyDebugDefault (a : LaunchArgs) (d : ConfigDefaults) : LaunchArgs :=
  if !a.debug then { a with debug := d.debug } else a

/-- State of `args` right before the mixed-precision handling at line 783. -/
def floodedArgs (a : LaunchArgs) (d : ConfigDefaults) : LaunchArgs :=
  let m := mergedArgs a d
  let m := if d.compute_environment == .LOCAL_MACHINE then floodFromDefaults m d else m
  applyDebugDefault m d

/-- Line 790-795: `native_amp` probe used by the bf16 capability check. -/
def nativeAmp (a : LaunchArgs) (uc : Bool) (p : EnvProbe) : Bool :=
  if uc || (a.use_xpu && p.xpu_available) then p.torch_ge_1_10 else p.bf16_available

/-- Lines 783-797: resolve `mixed_precision` from the persisted config when
unset (recording `mp_from_config_flag`), else run the bf16 capability
check.  Accessing `args.use_cpu` when the attribute was never set is the
source's latent `AttributeError`, modelled as `.useCpuAttrMissing`. -/
def mixedPrecisionStage (a : LaunchArgs) (d : ConfigDefaults) (p : EnvProbe) :
    Except ResolveError (LaunchArgs × Bool) :=
  if pyFalsy a.mixed_precision then
    match d.mixed_precision with
    | none => .ok ({ a with mixed_precision := some "no" }, false)
    | some mp => .ok ({ a with mixed_precision := some mp }, true)
  else
    match a.use_cpu with
    | none => .error .useCpuAttrMissing
    | some uc =>
      if a.mixed_precision == some "bf16" && !nativeAmp a uc p && !(a.tpu && p.tpu_available)
      then .error .bf16Requirement
      else .ok (a, false)

/-- Lines 800-801 and 831-833: `if args.dynamo_backend is None:
args.dynamo_backend = "no"`. -/
def applyDynamoDefault (a : LaunchArgs) : LaunchArgs :=
  if a.dynamo_backend.isNone then { a with dynamo_backend := some "no" } else a

/-- Lines 722-801: the branch of `_validate_launch_command` taken when a
persisted configuration is loaded. -/
def defaultsBranch (a : LaunchArgs) (d : ConfigDefaults) (p : EnvProbe) :
    Except ResolveError (LaunchArgs × Bool) :=
  if gpuIdsInvalid (mergedArgs a d) then .error .gpuIdsTooFew
  else
    match mixedPrecisionStage (floodedArgs a d) d p with
    | .error e => .error e
    | .ok (a', flag) => .ok (applyDynamoDefault a', flag)

/-- Lines 803-809: device-count auto-detection for `num_processes`. -/
def autoDeviceCount (a : LaunchArgs) (p : EnvProbe) : Nat :=
  if a.use_xpu && p.xpu_available then p.xpu_device_count
  else if p.npu_available then p.npu_device_count
  else p.cuda_device_count

/-- Lines 813-817: more than one device probed (multi-GPU auto-enable). -/
def multiDeviceDetected (a : LaunchArgs) (p : EnvProbe) : Bool :=
  (a.use_xpu && p.xpu_available && decide (p.xpu_device_count > 1))
    || (p.npu_available && decide (p.npu_device_count > 1))
    || decide (p.cuda_device_count > 1)

/-- Lines 803-810: `if args.num_processes is None: args.num_processes =
<device count>`. -/
def autoNumProcesses (a : LaunchArgs) (p : EnvProbe) : LaunchArgs :=
  if a.num_processes.isNone then
    { a with num_processes := some ((autoDeviceCount a p : Nat) : Int) }
  else a

/-- Lines 813-822: auto-enable multi-GPU when more than one device is
probed and multi-GPU was not requested. -/
def autoMultiGpu (a : LaunchArgs) (p : EnvProbe) : LaunchArgs :=
  if !a.multi_gpu && multiDeviceDetected a p then { a with multi_gpu := true } else a

/-- Lines 823-825: `if args.num_machines is None: args.num_machines = 1`. -/
def defaultNumMachines (a : LaunchArgs) : LaunchArgs :=
  if a.num_machines.isNone then { a with num_machines := some 1 } else a

/-- Lines 826-828: `if args.mixed_precision is None: args.mixed_precision
= "no"`. -/
def defaultMixedPrecision (a : LaunchArgs) : LaunchArgs :=
  if a.mixed_precision.isNone then { a with mixed_precision := some "no" } else a

/-- Lines 829-830: `if not hasattr(args, "use_cpu"): args.use_cpu =
args.cpu`. -/
def defaultUseCpu (a : LaunchArgs) : LaunchArgs :=
  if a.use_cpu.isNone then { a with use_cpu := some a.cpu } else a

/-- Lines 802-833: the branch of `_validate_launch_command` taken when no
persisted configuration applies (pure auto-detect path).  The
`if args.debug is None` line is dead under the argparse `store_true`
default (`debug` is always a concrete bool) and so has no model. -/
def noDefaultsBranch (a : LaunchArgs) (p : EnvProbe) : LaunchArgs :=
  applyDynamoDefault
    (defaultUseCpu (defaultMixedPrecision (defaultNumMachines
      (autoMultiGpu (autoNumProcesses a p) p))))

/-- Lines 837-851: default `num_cpu_threads_per_process` to 1 outside the
SageMaker environment, with the CPU-affinity-aware upgrade
`int(psutil.cpu_count(logical=False) / local_size)`. -/
def cpuThreadsStage (a : LaunchArgs) (defaults : Option ConfigDefaults) (p : EnvProbe) :
    LaunchArgs :=
  let is_aws_env_disabled :=
    match defaults with
    | none => true
    | some d => !(d.compute_environment == .AMAZON_SAGEMAKER)
  if is_aws_env_disabled && a.num_cpu_threads_per_process.isNone then
    let a1 := { a with num_cpu_threads_per_process := some 1 }
    if a1.use_cpu.getD false && decide ((a1.num_processes.getD 0) ≥ 1) then
      let threads : Nat := p.physical_cpu_count / p.env_local_size
      if threads > 1 then { a1 with num_cpu_threads_per_process := some ((threads : Nat) : Int) }
      else a1
    else a1
  else a

/-- Lines 707-860: `_validate_launch_command(args)`.  `persisted` stands
for what `load_config_from_file` would return; it is consulted only when
the line-720 guard holds. -/
def validate_launch_command (a : LaunchArgs) (persisted : ConfigDefaults) (p : EnvProbe) :
    Except ResolveError Resolved :=
  if exclusiveFlagsCount a > 1 then .error .mutuallyExclusive
  else if numProcessesCheckFails a then .error .numProcessesTooSmall
  else if loadsConfigDefaults a p then
    match defaultsBranch a persisted p with
    | .error e => .error e
    | .ok (a', flag) => .ok ⟨cpuThreadsStage a' (some persisted) p, some persisted, flag⟩
  else .ok ⟨cpuThreadsStage (noDefaultsBranch a p) none p, none, false⟩

/-- Backend identifiers, one per launcher reachable from `launch_command`:
`DeepGradientSharding` = `deepspeed_launcher`, `MultiProcess` =
`multi_gpu_launcher` (also used for FSDP and Megatron-LM),
`AcceleratorPod` = `tpu_launcher`, `AcceleratorPodCluster` =
`tpu_pod_launcher`, `ManagedCloud` = `sagemaker_launcher`, `Simple` =
`simple_launcher`. -/
inductive BackendId where
  | Simple
  | MultiProcess
  | DeepGradientSharding
  | AcceleratorPod
  | AcceleratorPodCluster
  | ManagedCloud
  deriving Repr, DecidableEq

/-- Lines 866-886: the if/elif dispatch of `launch_command` over the
resolved `args` and the loaded defaults. -/
def selectBackend (a : LaunchArgs) (defaults : Option ConfigDefaults) : BackendId :=
  if a.use_deepspeed && !a.cpu then .DeepGradientSharding
  else if a.use_fsdp && !a.cpu then .MultiProcess
  else if a.use_megatron_lm && !a.cpu then .MultiProcess
  else if a.multi_gpu && !a.cpu then .MultiProcess
  else if a.tpu && !a.cpu then
    (if a.tpu_use_cluster then .AcceleratorPodCluster else .AcceleratorPod)
  else
    match defaults with
    | some d => if d.compute_environment == .AMAZON_SAGEMAKER then .ManagedCloud else .Simple
    | none => .Simple

/-- Lines 863-886: `launch_command(args)` — resolve, then dispatch to
exactly one backend (the DeepSpeed bookkeeping of
`deepspeed_fields_from_accelerate_config` does not affect selection and is
not modelled). -/
def launch_command (a : LaunchArgs) (persisted : ConfigDefaults) (p : EnvProbe) :
    Except ResolveError BackendId :=
  match validate_launch_command a persisted p with
  | .error e => .error e
  | .ok r => .ok (selectBackend r.args r.defaults)

/-- Projection: the resolved `args` of a successful resolution. -/
def resolvedArgs : Except ResolveError Resolved → Option LaunchArgs
  | .ok r => some r.args
  | .error _ => none

/-- Projection: the loaded defaults of a successful resolution. -/
def resolvedDefaults : Except ResolveError Resolved → Option (Option ConfigDefaults)
  | .ok r => some r.defaults
  | .error _ => none

/-- Whether a resolution succeeded. -/
def isOkE : Except ResolveError Resolved → Bool
  | .ok _ => true
  | .error _ => false

/-- Modelled from the spec: `accelerate.utils.constants` is not part of
the provided source tree; per the spec, index 1 of the multinode-launcher
list is the "standard" (non-filesystem-propagation) kind and "pdsh" is the
default.  The order follows the `Literal` annotation of
`DeepSpeedArguments.deepspeed_multinode_launcher` (line 334). -/
def DEEPSPEED_MULTINODE_LAUNCHERS : List String :=
  ["pdsh", "standard", "openmpi", "mvapich", "mpich"]

/-- Python's `c in s` for a single character `c`. -/
def pyContainsChar (s : String) (c : Char) : Bool :=
  s.data.any fun x => x == c

/-- Lines 565-569: the `KEY=VALUE` lines appended to `.deepspeed_env`
(values containing `;` or a space are skipped). -/
def deepspeedEnvFileLines (env : List (String × String)) : List String :=
  env.filterMap fun kv =>
    if pyContainsChar kv.2 ';' || pyContainsChar kv.2 ' ' then none
    else some (kv.1 ++ "=" ++ kv.2)

/-- Line 564: the `.deepspeed_env` auxiliary file written by
`deepspeed_launcher` — `some lines` when `args.num_machines > 1` and the
launcher is not `DEEPSPEED_MULTINODE_LAUNCHERS[1]`, `none` otherwise (no
file written). -/
def deepspeedAuxEnvFile (num_machines : Int) (launcher : String)
    (env : List (String × String)) : Option (List String) :=
  if decide (num_machines > 1) && launcher != DEEPSPEED_MULTINODE_LAUNCHERS.getD 1 "" then
    some (deepspeedEnvFileLines env)
  else none

/-- Outcome of supervising one spawned child process. -/
inductive ExitOutcome where
  | success
  | calledProcessError (returncode : Int)
  | sysExit (code : Int)
  deriving Repr, DecidableEq

/-- Lines 524-530 (`simple_launcher`) and 571-577 (`deepspeed_launcher`
multinode path): map the child's exit code and the `--quiet` flag to the
supervisor's outcome. -/
def superviseSubprocess (returncode : Int) (quiet : Bool) : ExitOutcome :=
  if returncode ≠ 0 then
    if !quiet then .calledProcessError returncode else .sysExit 1
  else .success

/-- Outcome of `sagemaker_launcher` up to job submission. -/
inductive SagemakerOutcome where
  | importError
  | configError
  | submitted
  deriving Repr, DecidableEq

/-- Lines 687-699: `sagemaker_launcher` — dependency check, then the
module / no_python rejection, then `prepare_sagemager_args_inputs` and
submission. -/
def sagemaker_launcher (sagemaker_available : Bool) (a : LaunchArgs) : SagemakerOutcome :=
  if !sagemaker_available then .importError
  else if a.module || a.no_python then .configError
  else .submitted

/-- Whether `sagemaker_launcher` reached the point where the
job-submission descriptor is built (`prepare_sagemager_args_inputs`). -/
def sagemakerDescriptorBuilt : SagemakerOutcome → Bool
  | .submitted => true
  | _ => false

/-! Stage lemmas: which fields each resolution stage preserves or determines. -/

theorem adoptDistributedMode_cpu (a : LaunchArgs) (d : ConfigDefaults) :
    (adoptDistributedMode a d).cpu = a.cpu := by
  unfold adoptDistributedMode; split <;> rfl

theorem adoptDistributedMode_gpu_ids (a : LaunchArgs) (d : ConfigDefaults) :
    (adoptDistributedMode a d).gpu_ids = a.gpu_ids := by
  unfold adoptDistributedMode; split <;> rfl

theorem resolveGpuIds_gpu_ids (a : LaunchArgs) (d : ConfigDefaults) :
    (resolveGpuIds a d).gpu_ids = some (a.gpu_ids.getD (d.gpu_ids.getD "all")) := by
  unfold resolveGpuIds
  cases ha : a.gpu_ids <;> cases hd : d.gpu_ids <;> simp [ha, hd]

theorem resolveGpuIds_cpu (a : LaunchArgs) (d : ConfigDefaults) :
    (resolveGpuIds a d).cpu = a.cpu := by
  unfold resolveGpuIds
  cases ha : a.gpu_ids <;> cases hd : d.gpu_ids <;> simp [ha, hd]

theorem resolveNumMachines_gpu_ids (a : LaunchArgs) (d : ConfigDefaults) :
    (resolveNumMachines a d).gpu_ids = a.gpu_ids := by
  unfold resolveNumMachines; split <;> rfl

theorem resolveNumMachines_cpu (a : LaunchArgs) (d : ConfigDefaults) :
    (resolveNumMachines a d).cpu = a.cpu := by
  unfold resolveNumMachines; split <;> rfl

theorem mergedArgs_gpu_ids (a : LaunchArgs) (d : ConfigDefaults) :
    (mergedArgs a d).gpu_ids = some (a.gpu_ids.getD (d.gpu_ids.getD "all")) := by
  unfold mergedArgs
  rw [resolveNumMachines_gpu_ids, resolveGpuIds_gpu_ids, adoptDistributedMode_gpu_ids]

theorem mergedArgs_cpu (a : LaunchArgs) (d : ConfigDefaults) :
    (mergedArgs a d).cpu = a.cpu := by
  unfold mergedArgs
  rw [resolveNumMachines_cpu, resolveGpuIds_cpu, adoptDistributedMode_cpu]

theorem floodFromDefaults_cpu (a : LaunchArgs) (d : ConfigDefaults) :
    (floodFromDefaults a d).cpu = a.cpu := rfl

theorem floodFromDefaults_gpu_ids_of_isSome (a : LaunchArgs) (d : ConfigDefaults)
    (h : a.gpu_ids.isSome = true) : (floodFromDefaults a d).gpu_ids = a.gpu_ids := by
  unfold floodFromDefaults
  cases ha : a.gpu_ids with
  | none => rw [ha] at h; simp at h
  | some g => simp [ha]

theorem applyDebugDefault_cpu (a : LaunchArgs) (d : ConfigDefaults) :
    (applyDebugDefault a d).cpu = a.cpu := by
  unfold applyDebugDefault; split <;> rfl

theorem applyDebugDefault_gpu_ids (a : LaunchArgs) (d : ConfigDefaults) :
    (applyDebugDefault a d).gpu_ids = a.gpu_ids := by
  unfold applyDebugDefault; split <;> rfl

theorem floodedArgs_gpu_ids (a : LaunchArgs) (d : ConfigDefaults) :
    (floodedArgs a d).gpu_ids = some (a.gpu_ids.getD (d.gpu_ids.getD "all")) := by
  unfold floodedArgs
  rw [applyDebugDefault_gpu_ids]
  split
  · rw [floodFromDefaults_gpu_ids_of_isSome _ _ (by rw [mergedArgs_gpu_ids]; rfl)]
    exact mergedArgs_gpu_ids a d
  · exact mergedArgs_gpu_ids a d

theorem floodedArgs_cpu (a : LaunchArgs) (d : ConfigDefaults) :
    (floodedArgs a d).cpu = a.cpu := by
  unfold floodedArgs
  rw [applyDebugDefault_cpu]
  split
  · rw [floodFromDefaults_cpu, mergedArgs_cpu]
  · exact mergedArgs_cpu a d

theorem mixedPrecisionStage_ok (a : LaunchArgs) (d : ConfigDefaults) (p : EnvProbe)
    (a' : LaunchArgs) (f : Bool) (h : mixedPrecisionStage a d p = .ok (a', f)) :
    a'.gpu_ids = a.gpu_ids ∧ a'.cpu = a.cpu := by
  unfold mixedPrecisionStage at h
  split at h
  · split at h <;> (injection h with h1; injection h1 with h2 h3; subst h2; exact ⟨rfl, rfl⟩)
  · split at h
    · exact absurd h (by simp)
    · split at h
      · exact absurd h (by simp)
      · injection h with h1; injection h1 with h2 h3; subst h2; exact ⟨rfl, rfl⟩

theorem applyDynamoDefault_gpu_ids (a : LaunchArgs) :
    (applyDynamoDefault a).gpu_ids = a.gpu_ids := by
  unfold applyDynamoDefault; split <;> rfl

theorem applyDynamoDefault_cpu (a : LaunchArgs) :
    (applyDynamoDefault a).cpu = a.cpu := by
  unfold applyDynamoDefault; split <;> rfl

theorem defaultsBranch_ok (a : LaunchArgs) (d : ConfigDefaults) (p : EnvProbe)
    (a' : LaunchArgs) (f : Bool) (h : defaultsBranch a d p = .ok (a', f)) :
    a'.gpu_ids = some (a.gpu_ids.getD (d.gpu_ids.getD "all")) ∧ a'.cpu = a.cpu := by
  unfold defaultsBranch at h
  split at h
  · exact absurd h (by simp)
  · cases hm : mixedPrecisionStage (floodedArgs a d) d p with
    | error e => rw [hm] at h; exact absurd h (by simp)
    | ok pair =>
      rw [hm] at h
      injection h with h1
      injection h1 with h2 h3
      obtain ⟨hg, hc⟩ := mixedPrecisionStage_ok _ _ _ pair.1 pair.2 (by rw [hm])
      subst h2
      constructor
      · rw [applyDynamoDefault_gpu_ids, hg, floodedArgs_gpu_ids]
      · rw [applyDynamoDefault_cpu, hc, floodedArgs_cpu]

theorem cpuThreadsStage_gpu_ids (a : LaunchArgs) (x : Option ConfigDefaults) (p : EnvProbe) :
    (cpuThreadsStage a x p).gpu_ids = a.gpu_ids := by
  unfold cpuThreadsStage
  dsimp only
  split
  · split
    · split <;> rfl
    · rfl
  · rfl

theorem cpuThreadsStage_cpu (a : LaunchArgs) (x : Option ConfigDefaults) (p : EnvProbe) :
    (cpuThreadsStage a x p).cpu = a.cpu := by
  unfold cpuThreadsStage
  dsimp only
  split
  · split
    · split <;> rfl
    · rfl
  · rfl

theorem cpuThreadsStage_num_processes (a : LaunchArgs) (x : Option ConfigDefaults)
    (p : EnvProbe) : (cpuThreadsStage a x p).num_processes = a.num_processes := by
  unfold cpuThreadsStage
  dsimp only
  split
  · split
    · split <;> rfl
    · rfl
  · rfl

theorem autoNumProcesses_cpu (a : LaunchArgs) (p : EnvProbe) :
    (autoNumProcesses a p).cpu = a.cpu := by
  unfold autoNumProcesses; split <;> rfl

theorem autoMultiGpu_cpu (a : LaunchArgs) (p : EnvProbe) :
    (autoMultiGpu a p).cpu = a.cpu := by
  unfold autoMultiGpu; split <;> rfl

theorem defaultNumMachines_cpu (a : LaunchArgs) :
    (defaultNumMachines a).cpu = a.cpu := by
  unfold defaultNumMachines; split <;> rfl

theorem defaultMixedPrecision_cpu (a : LaunchArgs) :
    (defaultMixedPrecision a).cpu = a.cpu := by
  unfold defaultMixedPrecision; split <;> rfl

theorem defaultUseCpu_cpu (a : LaunchArgs) :
    (defaultUseCpu a).cpu = a.cpu := by
  unfold defaultUseCpu; split <;> rfl

theorem noDefaultsBranch_cpu (a : LaunchArgs) (p : EnvProbe) :
    (noDefaultsBranch a p).cpu = a.cpu := by
  unfold noDefaultsBranch
  rw [applyDynamoDefault_cpu, defaultUseCpu_cpu, defaultMixedPrecision_cpu,
    defaultNumMachines_cpu, autoMultiGpu_cpu, autoNumProcesses_cpu]

theorem autoMultiGpu_num_processes (a : LaunchArgs) (p : EnvProbe) :
    (autoMultiGpu a p).num_processes = a.num_processes := by
  unfold autoMultiGpu; split <;> rfl

theorem defaultNumMachines_num_processes (a : LaunchArgs) :
    (defaultNumMachines a).num_processes = a.num_processes := by
  unfold defaultNumMachines; split <;> rfl

theorem defaultMixedPrecision_num_processes (a : LaunchArgs) :
    (defaultMixedPrecision a).num_processes = a.num_processes := by
  unfold defaultMixedPrecision; split <;> rfl

theorem defaultUseCpu_num_processes (a : LaunchArgs) :
    (defaultUseCpu a).num_processes = a.num_processes := by
  unfold defaultUseCpu; split <;> rfl

theorem applyDynamoDefault_num_processes (a : LaunchArgs) :
    (applyDynamoDefault a).num_processes = a.num_processes := by
  unfold applyDynamoDefault; split <;> rfl

theorem noDefaultsBranch_num_processes_of_none (a : LaunchArgs) (p : EnvProbe)
    (h : a.num_processes = none) :
    (noDefaultsBranch a p).num_processes = some ((autoDeviceCount a p : Nat) : Int) := by
  unfold noDefaultsBranch
  rw [applyDynamoDefault_num_processes, defaultUseCpu_num_processes,
    defaultMixedPrecision_num_processes, defaultNumMachines_num_processes,
    autoMultiGpu_num_processes]
  unfold autoNumProcesses
  rw [if_pos (by rw [h]; rfl)]

theorem validate_ok_cpu (a : LaunchArgs) (d : ConfigDefaults) (p : EnvProbe) (r : Resolved)
    (h : validate_launch_command a d p = .ok r) : r.args.cpu = a.cpu := by
  unfold validate_launch_command at h
  split at h
  · exact absurd h (by simp)
  · split at h
    · exact absurd h (by simp)
    · split at h
      · cases hb : defaultsBranch a d p with
        | error e => rw [hb] at h; exact absurd h (by simp)
        | ok pair =>
          rw [hb] at h
          injection h with h1
          subst h1
          rw [cpuThreadsStage_cpu]
          exact (defaultsBranch_ok a d p pair.1 pair.2 (by rw [hb])).2
      · injection h with h1
        subst h1
        rw [cpuThreadsStage_cpu, noDefaultsBranch_cpu]

/-! Claim C1: mutual exclusion of distributed-mode flags. -/

/-- Input refuting C1 as stated: `--multi_gpu` and `--use_megatron_lm`
both explicitly true. -/
def c1args : LaunchArgs :=
  { multi_gpu := true, use_megatron_lm := true, num_processes := some 2,
    num_machines := some 1, mixed_precision := some "no",
    dynamo_backend := some "no", num_cpu_threads_per_process := some 1 }

/-- Claim C1, counterexample: with `--multi_gpu` and `--use_megatron_lm`
both explicitly set (two of the claim's five flags), resolution raises no
configuration error and a backend launcher is selected — the code's
exclusivity check covers `use_fsdp`, not `use_megatron_lm`. -/
theorem C1_counterexample : launch_command c1args {} {} = .ok .MultiProcess := by rfl

/-- Claim C1, amended: for every raw request in which more than one of the
five flags {`multi_gpu`, `cpu`, `tpu`, `use_deepspeed`, `use_fsdp`} is
explicitly set to true, resolution raises the mutual-exclusion
configuration error before any backend is selected. -/
theorem C1_amended (a : LaunchArgs) (d : ConfigDefaults) (p : EnvProbe)
    (h : exclusiveFlagsCount a > 1) :
    launch_command a d p = .error .mutuallyExclusive := by
  unfold launch_command validate_launch_command
  rw [if_pos h]

/-- Claim C1, witness: `--cpu` together with `--tpu` is rejected. -/
theorem C1_witness :
    launch_command { cpu := true, tpu := true } {} {} = .error .mutuallyExclusive :=
  C1_amended { cpu := true, tpu := true } {} {} (by decide)

/-! Claim C5: backend selection priority order and CPU forcing. -/

/-- Claim C5, counterexample: with CPU-only forced and an explicit config
file whose persisted compute environment is Amazon SageMaker, dispatch
selects the managed-cloud backend, not Simple — CPU forcing does not
override the managed-cloud branch. -/
theorem C5_counterexample :
    launch_command { cpu := true, config_file := some "cfg.yaml" }
      { compute_environment := .AMAZON_SAGEMAKER } {} = .ok .ManagedCloud := by rfl

/-- Claim C5, amended: backend selection is a pure function picking
exactly one backend by first-match priority order gradient-sharding,
model-sharding (FSDP), model-parallel (Megatron-LM), multi-GPU,
accelerator-pod (cluster or single), managed-cloud, Simple; CPU-only
forcing falls through every distributed branch but not past the
managed-cloud branch: it yields ManagedCloud when SageMaker persisted
defaults were loaded, and Simple otherwise. -/
theorem C5_amended (a : LaunchArgs) (d : Option ConfigDefaults) :
    ((a.use_deepspeed && !a.cpu) = true → selectBackend a d = .DeepGradientSharding) ∧
    ((a.use_fsdp && !a.use_deepspeed && !a.cpu) = true → selectBackend a d = .MultiProcess) ∧
    ((a.use_megatron_lm && !a.use_deepspeed && !a.use_fsdp && !a.cpu) = true →
      selectBackend a d = .MultiProcess) ∧
    ((a.multi_gpu && !a.use_deepspeed && !a.use_fsdp && !a.use_megatron_lm && !a.cpu) = true →
      selectBackend a d = .MultiProcess) ∧
    ((a.tpu && !a.use_deepspeed && !a.use_fsdp && !a.use_megatron_lm && !a.multi_gpu
        && !a.cpu) = true →
      selectBackend a d =
        (if a.tpu_use_cluster then .AcceleratorPodCluster else .AcceleratorPod)) ∧
    (a.cpu = true → selectBackend a d =
      (match d with
       | some dd =>
         if dd.compute_environment == .AMAZON_SAGEMAKER then .ManagedCloud else .Simple
       | none => .Simple)) := by
  refine ⟨?_, ?_, ?_, ?_, ?_, ?_⟩ <;> intro h
  · simp only [Bool.and_eq_true, Bool.not_eq_true'] at h
    obtain ⟨h1, h2⟩ := h
    simp [selectBackend, h1, h2]
  · simp only [Bool.and_eq_true, Bool.not_eq_true'] at h
    obtain ⟨⟨h1, h2⟩, h3⟩ := h
    simp [selectBackend, h1, h2, h3]
  · simp only [Bool.and_eq_true, Bool.not_eq_true'] at h
    obtain ⟨⟨⟨h1, h2⟩, h3⟩, h4⟩ := h
    simp [selectBackend, h1, h2, h3, h4]
  · simp only [Bool.and_eq_true, Bool.not_eq_true'] at h
    obtain ⟨⟨⟨⟨h1, h2⟩, h3⟩, h4⟩, h5⟩ := h
    simp [selectBackend, h1, h2, h3, h4, h5]
  · simp only [Bool.and_eq_true, Bool.not_eq_true'] at h
    obtain ⟨⟨⟨⟨⟨h1, h2⟩, h3⟩, h4⟩, h5⟩, h6⟩ := h
    simp [selectBackend, h1, h2, h3, h4, h5, h6]
  · simp [selectBackend, h]

/-- Claim C5, witness: CPU-only with no loaded defaults selects Simple. -/
theorem C5_witness : selectBackend { cpu := true, multi_gpu := false } none = .Simple :=
  (C5_amended { cpu := true, multi_gpu := false } none).2.2.2.2.2 rfl

/-! Claim C7: the `.deepspeed_env` auxiliary environment file. -/

/-- Helper: the appended lines are exactly the `KEY=VALUE` renderings of
the variables whose value contains neither `;` nor a space, in order. -/
theorem deepspeedEnvFileLines_eq (env : List (String × String)) :
    deepspeedEnvFileLines env =
      (env.filter fun kv => !(pyContainsChar kv.2 ';' || pyContainsChar kv.2 ' ')).map
        fun kv => kv.1 ++ "=" ++ kv.2 := by
  induction env with
  | nil => rfl
  | cons kv tl ih =>
    unfold deepspeedEnvFileLines at ih ⊢
    rw [List.filterMap_cons, List.filter_cons]
    cases hb : (pyContainsChar kv.2 ';' || pyContainsChar kv.2 ' ') with
    | true => simpa using ih
    | false => simpa using ih

/-- Claim C7: when the DeepSpeed backend runs with `num_machines > 1` and
a multinode launcher other than "standard", `.deepspeed_env` receives one
`KEY=VALUE` line for every environment variable whose value contains
neither a space nor a semicolon (the others are skipped); with the
"standard" launcher or `num_machines = 1` no file is written. -/
theorem C7_deepspeed_env_file (n : Int) (launcher : String) (env : List (String × String)) :
    (launcher = "standard" → deepspeedAuxEnvFile n launcher env = none) ∧
    (n = 1 → deepspeedAuxEnvFile n launcher env = none) ∧
    (n > 1 → launcher ≠ "standard" →
      deepspeedAuxEnvFile n launcher env =
        some ((env.filter fun kv => !(pyContainsChar kv.2 ';' || pyContainsChar kv.2 ' ')).map
          fun kv => kv.1 ++ "=" ++ kv.2)) := by
  refine ⟨?_, ?_, ?_⟩
  · intro h
    subst h
    unfold deepspeedAuxEnvFile
    rw [show DEEPSPEED_MULTINODE_LAUNCHERS.getD 1 "" = "standard" from rfl]
    simp
  · intro h
    subst h
    unfold deepspeedAuxEnvFile
    simp
  · intro hn hl
    have hc : (decide (n > 1) && launcher != DEEPSPEED_MULTINODE_LAUNCHERS.getD 1 "") = true := by
      rw [Bool.and_eq_true]
      refine ⟨decide_eq_true hn, ?_⟩
      rw [show DEEPSPEED_MULTINODE_LAUNCHERS.getD 1 "" = "standard" from rfl]
      exact bne_iff_ne.mpr hl
    unfold deepspeedAuxEnvFile
    rw [if_pos hc, deepspeedEnvFileLines_eq]

/-- Claim C7, witness: two machines with the "pdsh" launcher write the
file, keeping `A=1` and skipping the value containing a space. -/
theorem C7_witness :
    deepspeedAuxEnvFile 2 "pdsh" [("A", "1"), ("B", "x y")] = some ["A=1"] := by
  have h := (C7_deepspeed_env_file 2 "pdsh" [("A", "1"), ("B", "x y")]).2.2
    (by decide) (by decide)
  rw [h]
  rfl

/-! Claim C8: subprocess exit-code propagation. -/

/-- Claim C8: a zero child exit code is success; a non-zero exit code
exits the supervisor with status 1 under `--quiet`, and otherwise
propagates the child's original exit code. -/
theorem C8_exit_codes (rc : Int) (quiet : Bool) :
    (rc = 0 → superviseSubprocess rc quiet = .success) ∧
    (rc ≠ 0 → quiet = true → superviseSubprocess rc quiet = .sysExit 1) ∧
    (rc ≠ 0 → quiet = false → superviseSubprocess rc quiet = .calledProcessError rc) := by
  refine ⟨?_, ?_, ?_⟩
  · intro h
    subst h
    rfl
  · intro h hq
    subst hq
    unfold superviseSubprocess
    rw [if_pos h]
    rfl
  · intro h hq
    subst hq
    unfold superviseSubprocess
    rw [if_pos h]
    rfl

/-- Claim C8, witness: child exit code 3 under `--quiet` becomes
`sys.exit(1)`; without `--quiet` it is propagated as code 3. -/
theorem C8_witness :
    superviseSubprocess 3 true = .sysExit 1 ∧
    superviseSubprocess 3 false = .calledProcessError 3 :=
  ⟨(C8_exit_codes 3 true).2.1 (by decide) rfl, (C8_exit_codes 3 false).2.2 (by decide) rfl⟩

/-! Claim C9: SageMaker launcher rejects module / no_python modes. -/

/-- Claim C9: for every managed-cloud launch request with module-mode or
no-python mode set, the job-submission descriptor is never built, and
(when the SageMaker dependency is installed) the failure is the
configuration error rather than anything later. -/
theorem C9_sagemaker_reject (avail : Bool) (a : LaunchArgs)
    (h : (a.module || a.no_python) = true) :
    sagemakerDescriptorBuilt (sagemaker_launcher avail a) = false ∧
    (avail = true → sagemaker_launcher avail a = .configError) := by
  constructor
  · unfold sagemaker_launcher
    cases avail with
    | false => rfl
    | true => simp [h, sagemakerDescriptorBuilt]
  · intro ha
    subst ha
    unfold sagemaker_launcher
    simp [h]

/-- Claim C9, witness: `--module` with SageMaker installed fails with the
configuration error and builds no descriptor. -/
theorem C9_witness :
    sagemaker_launcher true { module := true } = .configError ∧
    sagemakerDescriptorBuilt (sagemaker_launcher true { module := true }) = false :=
  ⟨(C9_sagemaker_reject true { module := true } rfl).2 rfl,
   (C9_sagemaker_reject true { module := true } rfl).1⟩

/-! Claim C3: gpu-ids cardinality validation. -/

/-- Input refuting C3 as stated: multi-GPU explicitly active, one machine,
a one-element gpu-ids list, and no persisted configuration. -/
def c3args : LaunchArgs :=
  { multi_gpu := true, gpu_ids := some "0", num_processes := some 2,
    num_machines := some 1, mixed_precision := some "no",
    dynamo_backend := some "no", num_cpu_threads_per_process := some 1 }

/-- Claim C3, counterexample: multi-GPU is active, `num_machines = 1` and
`gpu_ids` is the one-element literal list `"0"`, yet resolution succeeds —
the cardinality check runs only when a persisted configuration is
loaded, and here none applies. -/
theorem C3_counterexample :
    (resolvedArgs (validate_launch_command c3args {} {})).map
      (fun x => (x.multi_gpu, x.gpu_ids, x.num_machines))
      = some (true, some "0", some 1) := by rfl

/-- Claim C3, amended: when a persisted configuration is loaded and, after
the distributed-mode / gpu-ids / machine-count merge, multi-GPU mode is
active, the machine count is at most 1, and `gpu_ids` is a literal list
other than "all" with fewer than two ids, resolution fails with the
gpu-ids validation error. -/
theorem C3_amended (a : LaunchArgs) (d : ConfigDefaults) (p : EnvProbe) (m : Int) (g : String)
    (hload : loadsConfigDefaults a p = true)
    (h1 : exclusiveFlagsCount a ≤ 1)
    (h2 : numProcessesCheckFails a = false)
    (hmg : (mergedArgs a d).multi_gpu = true)
    (hnm : (mergedArgs a d).num_machines = some m)
    (hm : m ≤ 1)
    (hg : (mergedArgs a d).gpu_ids = some g)
    (hga : g ≠ "all")
    (hglen : (pySplitComma g).length < 2) :
    validate_launch_command a d p = .error .gpuIdsTooFew := by
  have hinv : gpuIdsInvalid (mergedArgs a d) = true := by
    unfold gpuIdsInvalid
    rw [hg, hnm, hmg]
    simp only [Option.getD_some]
    rw [Bool.and_eq_true, Bool.and_eq_true, Bool.and_eq_true]
    exact ⟨⟨⟨decide_eq_true hglen, bne_iff_ne.mpr hga⟩, rfl⟩, decide_eq_true hm⟩
  have h1' : ¬ exclusiveFlagsCount a > 1 := by omega
  simp [validate_launch_command, h1', h2, hload, defaultsBranch, hinv]

/-- Claim C3, witness: an explicit config file, explicit multi-GPU,
`gpu_ids = "0"` and a persisted machine count of 1 are rejected. -/
theorem C3_witness :
    validate_launch_command
      { config_file := some "cfg.yaml", multi_gpu := true, gpu_ids := some "0",
        num_processes := some 2 } {} {} = .error .gpuIdsTooFew :=
  C3_amended
    { config_file := some "cfg.yaml", multi_gpu := true, gpu_ids := some "0",
      num_processes := some 2 } {} {} 1 "0"
    (by decide) (by decide) (by decide) (by decide) (by decide) (by decide)
    (by decide) (by decide) (by decide)

/-! Claim C6: positivity of the resolved process count. -/

/-- Claim C6, counterexample: with nothing explicit, no persisted
configuration and zero probed devices, resolution succeeds with
`num_processes = 0` — not a positive integer. -/
theorem C6_counterexample :
    (resolvedArgs (validate_launch_command {} {} {})).map (fun x => x.num_processes)
      = some (some 0) := by rfl

/-- Claim C6, amended: the `num_processes ≥ 2` validation applies only
when both `--multi_gpu` and `--num_processes` are given explicitly (then
resolution fails for values below 2); when `num_processes` is unset and no
persisted configuration applies it is filled with the probed device
count, which may be any value including 0 or 1. -/
theorem C6_amended (a : LaunchArgs) (d : ConfigDefaults) (p : EnvProbe) :
    (∀ n : Int, exclusiveFlagsCount a ≤ 1 → a.multi_gpu = true → a.num_processes = some n →
      n < 2 → validate_launch_command a d p = .error .numProcessesTooSmall) ∧
    (exclusiveFlagsCount a ≤ 1 → loadsConfigDefaults a p = false → a.num_processes = none →
      (resolvedArgs (validate_launch_command a d p)).map (fun x => x.num_processes)
        = some (some ((autoDeviceCount a p : Nat) : Int))) := by
  constructor
  · intro n h1 hmg hnp hlt
    have h1' : ¬ exclusiveFlagsCount a > 1 := by omega
    have h2 : numProcessesCheckFails a = true := by
      unfold numProcessesCheckFails
      rw [hmg, hnp]
      simpa using hlt
    simp [validate_launch_command, h1', h2]
  · intro h1 hload hnp
    have h1' : ¬ exclusiveFlagsCount a > 1 := by omega
    have h2 : numProcessesCheckFails a = false := by
      unfold numProcessesCheckFails
      rw [hnp]
      simp
    unfold validate_launch_command
    rw [if_neg h1', if_neg (by simp [h2]), if_neg (by simp [hload])]
    simp [resolvedArgs, cpuThreadsStage_num_processes,
      noDefaultsBranch_num_processes_of_none a p hnp]

/-- Claim C6, witness: explicit `--multi_gpu` with explicit
`--num_processes 1` is rejected. -/
theorem C6_witness :
    validate_launch_command { multi_gpu := true, num_processes := some 1 } {} {}
      = .error .numProcessesTooSmall :=
  (C6_amended { multi_gpu := true, num_processes := some 1 } {} {}).1 1
    (by decide) rfl rfl (by decide)

/-! Claim C4: bf16 capability validation. -/

/-- Input refuting C4 as stated: explicit bf16 with no capability and no
persisted configuration. -/
def c4args : LaunchArgs :=
  { mixed_precision := some "bf16", num_processes := some 1, num_machines := some 1,
    dynamo_backend := some "no", num_cpu_threads_per_process := some 1 }

/-- Claim C4, counterexample: explicit `mixed_precision="bf16"`, the
native-support probe false and no TPU capability, yet with no persisted
configuration resolution succeeds and keeps bf16 unchecked — the bf16
validation lives only in the persisted-config branch. -/
theorem C4_counterexample :
    (resolvedArgs (validate_launch_command c4args {} {})).map
      (fun x => x.mixed_precision) = some (some "bf16") := by rfl

/-- Claim C4, amended: the bf16 capability validation runs exactly when a
persisted configuration is loaded and `mixed_precision` was passed
explicitly; in that case, if the native mixed-precision probe is false and
the TPU capability is absent, resolution fails with the bf16 capability
error. -/
theorem C4_amended (a : LaunchArgs) (d : ConfigDefaults) (p : EnvProbe) (uc : Bool)
    (hload : loadsConfigDefaults a p = true)
    (h1 : exclusiveFlagsCount a ≤ 1)
    (h2 : numProcessesCheckFails a = false)
    (hgpu : gpuIdsInvalid (mergedArgs a d) = false)
    (hmp : (floodedArgs a d).mixed_precision = some "bf16")
    (huc : (floodedArgs a d).use_cpu = some uc)
    (hnative : nativeAmp (floodedArgs a d) uc p = false)
    (htpu : ((floodedArgs a d).tpu && p.tpu_available) = false) :
    validate_launch_command a d p = .error .bf16Requirement := by
  have hstage : mixedPrecisionStage (floodedArgs a d) d p = .error .bf16Requirement := by
    unfold mixedPrecisionStage
    rw [hmp, huc]
    rw [if_neg (by decide)]
    dsimp only
    rw [hnative, htpu]
    rw [if_pos (by decide)]
  have h1' : ¬ exclusiveFlagsCount a > 1 := by omega
  simp [validate_launch_command, h1', h2, hload, defaultsBranch, hgpu, hstage]

/-- Claim C4, witness: explicit config file plus explicit bf16 on a host
with no native support and no TPU is rejected. -/
theorem C4_witness :
    validate_launch_command
      { config_file := some "cfg.yaml", mixed_precision := some "bf16" } {} {}
      = .error .bf16Requirement :=
  C4_amended { config_file := some "cfg.yaml", mixed_precision := some "bf16" } {} {} false
    (by decide) (by decide) (by decide) (by decide) (by decide) (by decide)
    (by decide) (by decide)

/-! Claim C2: gpu_ids precedence. -/

/-- Input refuting C2 as stated: nothing explicit about GPUs and no
persisted configuration. -/
def c2args : LaunchArgs :=
  { num_processes := some 1, num_machines := some 1, mixed_precision := some "no",
    dynamo_backend := some "no", num_cpu_threads_per_process := some 1 }

/-- Claim C2, counterexample: when no persisted configuration applies,
resolution succeeds with `gpu_ids` still unset — it is not defaulted to
"all" on this path. -/
theorem C2_counterexample :
    (resolvedArgs (validate_launch_command c2args {} {})).map (fun x => x.gpu_ids)
      = some none := by rfl

/-- Claim C2, amended: when a persisted configuration is loaded, the
resolved `gpu_ids` follows the precedence explicit value, else persisted
value, else the literal "all", and is never left unset; when no persisted
configuration applies, `gpu_ids` is left exactly as given (possibly
unset). -/
theorem C2_amended (a : LaunchArgs) (d : ConfigDefaults) (p : EnvProbe)
    (hload : loadsConfigDefaults a p = true)
    (hok : isOkE (validate_launch_command a d p) = true) :
    (resolvedArgs (validate_launch_command a d p)).map (fun x => x.gpu_ids)
      = some (some (a.gpu_ids.getD (d.gpu_ids.getD "all"))) := by
  by_cases h1 : exclusiveFlagsCount a > 1
  · exfalso
    have hv : validate_launch_command a d p = .error .mutuallyExclusive := by
      unfold validate_launch_command
      rw [if_pos h1]
    rw [hv] at hok
    exact absurd hok (by simp [isOkE])
  · by_cases h2 : numProcessesCheckFails a = true
    · exfalso
      have hv : validate_launch_command a d p = .error .numProcessesTooSmall := by
        unfold validate_launch_command
        rw [if_neg h1, if_pos h2]
      rw [hv] at hok
      exact absurd hok (by simp [isOkE])
    · cases hb : defaultsBranch a d p with
      | error e =>
        exfalso
        have hv : validate_launch_command a d p = .error e := by
          unfold validate_launch_command
          rw [if_neg h1, if_neg h2, if_pos hload, hb]
        rw [hv] at hok
        exact absurd hok (by simp [isOkE])
      | ok pair =>
        obtain ⟨a', flag⟩ := pair
        have hv : validate_launch_command a d p
            = .ok ⟨cpuThreadsStage a' (some d) p, some d, flag⟩ := by
          unfold validate_launch_command
          rw [if_neg h1, if_neg h2, if_pos hload, hb]
        rw [hv]
        have hg := (defaultsBranch_ok a d p a' flag hb).1
        simp [resolvedArgs, cpuThreadsStage_gpu_ids, hg]

/-- Inputs for the C2 witness: explicit config file, no explicit
`gpu_ids`, persisted `gpu_ids = "0,1"`. -/
def c2wargs : LaunchArgs :=
  { config_file := some "cfg.yaml", mixed_precision := some "no",
    dynamo_backend := some "no", num_cpu_threads_per_process := some 1 }

/-- Claim C2, witness: with a loaded config carrying `gpu_ids = "0,1"`
and no explicit value, resolution yields `gpu_ids = "0,1"`. -/
theorem C2_witness :
    (resolvedArgs (validate_launch_command c2wargs { gpu_ids := some "0,1" } {})).map
      (fun x => x.gpu_ids) = some (some "0,1") := by
  have h := C2_amended c2wargs { gpu_ids := some "0,1" } {} (by decide) (by decide)
  rw [h]
  rfl

/-! Claim C10: the config-file guard and CPU forcing. -/

/-- Helper: when the line-720 guard holds, a successful resolution carries
the loaded defaults. -/
theorem validate_defaults_of_load (a : LaunchArgs) (d : ConfigDefaults) (p : EnvProbe)
    (hload : loadsConfigDefaults a p = true) (r : Resolved)
    (hv : validate_launch_command a d p = .ok r) : r.defaults = some d := by
  by_cases h1 : exclusiveFlagsCount a > 1
  · have hx : validate_launch_command a d p = .error .mutuallyExclusive := by
      unfold validate_launch_command
      rw [if_pos h1]
    rw [hx] at hv
    exact absurd hv (by simp)
  · by_cases h2 : numProcessesCheckFails a = true
    · have hx : validate_launch_command a d p = .error .numProcessesTooSmall := by
        unfold validate_launch_command
        rw [if_neg h1, if_pos h2]
      rw [hx] at hv
      exact absurd hv (by simp)
    · cases hb : defaultsBranch a d p with
      | error e =>
        have hx : validate_launch_command a d p = .error e := by
          unfold validate_launch_command
          rw [if_neg h1, if_neg h2, if_pos hload, hb]
        rw [hx] at hv
        exact absurd hv (by simp)
      | ok pair =>
        obtain ⟨a', flag⟩ := pair
        have hx : validate_launch_command a d p
            = .ok ⟨cpuThreadsStage a' (some d) p, some d, flag⟩ := by
          unfold validate_launch_command
          rw [if_neg h1, if_neg h2, if_pos hload, hb]
        rw [hx] at hv
        injection hv with h3
        rw [← h3]

/-- Helper: when the line-720 guard fails, a successful resolution carries
no defaults. -/
theorem validate_defaults_of_noload (a : LaunchArgs) (d : ConfigDefaults) (p : EnvProbe)
    (hload : loadsConfigDefaults a p = false) (r : Resolved)
    (hv : validate_launch_command a d p = .ok r) : r.defaults = none := by
  by_cases h1 : exclusiveFlagsCount a > 1
  · have hx : validate_launch_command a d p = .error .mutuallyExclusive := by
      unfold validate_launch_command
      rw [if_pos h1]
    rw [hx] at hv
    exact absurd hv (by simp)
  · by_cases h2 : numProcessesCheckFails a = true
    · have hx : validate_launch_command a d p = .error .numProcessesTooSmall := by
        unfold validate_launch_command
        rw [if_neg h1, if_pos h2]
      rw [hx] at hv
      exact absurd hv (by simp)
    · have hx : validate_launch_command a d p
          = .ok ⟨cpuThreadsStage (noDefaultsBranch a p) none p, none, false⟩ := by
        unfold validate_launch_command
        rw [if_neg h1, if_neg h2, if_neg (by simp [hload])]
      rw [hx] at hv
      injection hv with h3
      rw [← h3]

/-- Claim C10: an explicit `--config_file` loads the persisted
configuration even when CPU-only is forced (the CPU flag only suppresses
the implicit default config file), and a forced-CPU run with an explicit
SageMaker config still dispatches to the managed-cloud backend. -/
theorem C10_config_file_guard (a : LaunchArgs) (d : ConfigDefaults) (p : EnvProbe)
    (hcpu : a.cpu = true) :
    (a.config_file.isSome = true →
      (isOkE (validate_launch_command a d p) = true →
        resolvedDefaults (validate_launch_command a d p) = some (some d)) ∧
      (d.compute_environment = .AMAZON_SAGEMAKER →
        isOkE (validate_launch_command a d p) = true →
        launch_command a d p = .ok .ManagedCloud)) ∧
    (a.config_file = none →
      isOkE (validate_launch_command a d p) = true →
      resolvedDefaults (validate_launch_command a d p) = some none) := by
  constructor
  · intro hsome
    have hload : loadsConfigDefaults a p = true := by
      simp [loadsConfigDefaults, hsome]
    constructor
    · intro hok
      cases hv : validate_launch_command a d p with
      | error e => rw [hv] at hok; exact absurd hok (by simp [isOkE])
      | ok r =>
        have hdef := validate_defaults_of_load a d p hload r hv
        simp [resolvedDefaults, hdef]
    · intro hsm hok
      cases hv : validate_launch_command a d p with
      | error e => rw [hv] at hok; exact absurd hok (by simp [isOkE])
      | ok r =>
        have hdef : r.defaults = some d := validate_defaults_of_load a d p hload r hv
        have hrc : r.args.cpu = true := by
          rw [validate_ok_cpu a d p r hv]
          exact hcpu
        simp [launch_command, hv, selectBackend, hdef, hrc, hsm]
        rfl
  · intro hnone hok
    have hload : loadsConfigDefaults a p = false := by
      simp [loadsConfigDefaults, hnone, hcpu]
    cases hv : validate_launch_command a d p with
    | error e => rw [hv] at hok; exact absurd hok (by simp [isOkE])
    | ok r =>
      have hdef := validate_defaults_of_noload a d p hload r hv
      simp [resolvedDefaults, hdef]

/-- Claim C10, witness: forced CPU with an explicit config file loads the
persisted defaults; forced CPU without one skips even an existing default
config file. -/
theorem C10_witness :
    resolvedDefaults (validate_launch_command
      { cpu := true, config_file := some "cfg.yaml" } { debug := true } {})
      = some (some { debug := true }) ∧
    resolvedDefaults (validate_launch_command { cpu := true } { debug := true }
      { default_config_file_exists := true }) = some none :=
  ⟨((C10_config_file_guard { cpu := true, config_file := some "cfg.yaml" }
      { debug := true } {} rfl).1 rfl).1 (by decide),
   (C10_config_file_guard { cpu := true } { debug := true }
      { default_config_file_exists := true } rfl).2 rfl (by decide)⟩

end AccelerateLaunch
